import Mathlib

/-!
Shallow embedding of the smart-raffle settlement engine.

The repository ships only the brownie test suite and deployment scripts for
the `Raffle` contract; the contract source itself is not present.  The data
model and every operation below are therefore modelled from the
specification (spec.md §3, §4, §6), keeping the field and operation names
the test suite observes (`soldTickets`, `ticketAddress`, `currentState`,
`buyTicket`, `openTicketsSale`, `cancelRaffle`, `claimRefunds`,
`redeemPrize`, `claimProfits`, ...).  Identities (addresses) are natural
numbers, with 0 playing the role of the default (null) address; amounts are
natural numbers in the smallest currency unit.
-/

/-- Modelled from the spec (§4.4): the round lifecycle states.  The contract
source is missing from the repository; the enumeration order mirrors the
numeric values the tests observe (`currentState() == 0` for closed,
`== 1` for open, `== 2` for salesFinished). -/
inductive RaffleState where
  | Closed
  | Open
  | SalesFinished
  | Settled
  | Cancelled
deriving DecidableEq, Repr

/-- Modelled from the spec (§4, §7): the named failure modes of the
operations.  The contract source is missing from the repository. -/
inductive RaffleError where
  | RoundAlreadyOpen
  | InvalidTicketRange
  | RaffleNotOpen
  | InvalidTicketNumber
  | TicketAlreadySold
  | InsufficientAllowance
  | InsufficientBalance
  | Unauthorized
  | AlreadyRedeemed
  | NothingToRefund
  | InvalidState
  | UnknownRequest
deriving DecidableEq, Repr

/-- Pointwise update of a map over identities / ticket numbers. -/
def updateFn (f : Nat → Nat) (k v : Nat) : Nat → Nat :=
  fun x => if x = k then v else f x

/-- Modelled from the spec (§6): the external value-transfer collaborator
(an ERC20-style token).  `balanceOf` is each identity's token balance and
`allowance` is the amount that identity has pre-authorized the raffle
contract to pull.  The token source is missing from the repository. -/
structure Token where
  balanceOf : Nat → Nat
  allowance : Nat → Nat

/-- Modelled from the spec (§6): `transferFrom(payer, contract, amount)`,
the pull used by `buyTicket`.  Fails with `InsufficientAllowance` or
`InsufficientBalance`; on success it debits the payer and consumes the
allowance. -/
def Token.transferFrom (t : Token) (payer amount : Nat) : Except RaffleError Token :=
  if t.allowance payer < amount then .error .InsufficientAllowance
  else if t.balanceOf payer < amount then .error .InsufficientBalance
  else .ok { balanceOf := updateFn t.balanceOf payer (t.balanceOf payer - amount),
             allowance := updateFn t.allowance payer (t.allowance payer - amount) }

/-- Modelled from the spec (§6): `transfer(recipient, amount)`, the push used
by redemption and refund operations, crediting the recipient from escrow. -/
def Token.transfer (t : Token) (recipient amount : Nat) : Token :=
  { t with balanceOf := updateFn t.balanceOf recipient (t.balanceOf recipient + amount) }

/-- Modelled from the spec (§3, §4.4): one raffle Round together with the
manager configuration (owner, beneficiary, profit factor) and the
randomness-gateway bookkeeping.  The contract source is missing from the
repository. -/
structure Raffle where
  owner : Nat
  beneficiaryAddress : Nat
  profitFactor : Nat
  state : RaffleState
  ticketPrice : Nat
  ticketMinNumber : Nat
  ticketMaxNumber : Nat
  soldTicketNumbers : List Nat
  ticketOwner : Nat → Nat
  totalEscrowed : Nat
  prizeAmount : Nat
  profitAmount : Nat
  nextRequestId : Nat
  pendingRequestId : Option Nat
  obtainedRandomNumber : Option Nat
  winnerTicketNumber : Nat
  winnerIdentity : Nat
  prizeRedeemed : Bool
  profitRedeemed : Bool
  refundable : Nat → Nat

/-- The raffle contract together with the external token it moves funds
through. -/
structure System where
  raffle : Raffle
  token : Token

/-- Modelled from the spec (§4.2): `computeSplit(totalEscrowed, profitFactor)`
returns `(prize, profit)` with `profit = floor(totalEscrowed * profitFactor
/ 100)` and `prize = totalEscrowed - profit`. -/
def computeSplit (totalEscrowed profitFactor : Nat) : Nat × Nat :=
  let profit := totalEscrowed * profitFactor / 100
  (totalEscrowed - profit, profit)

/-- Number of sold tickets owned by identity `b` in the round. -/
def ownedCount (r : Raffle) (b : Nat) : Nat :=
  r.soldTicketNumbers.countP (fun t => r.ticketOwner t == b)

/-- Observable query (spec §6): accumulated escrow of the round. -/
def getTotalAccumulatedAmount (r : Raffle) : Nat := r.totalEscrowed

/-- Observable query (spec §6): the prize share of the current escrow. -/
def getCurrentPrizeAmount (r : Raffle) : Nat :=
  (computeSplit r.totalEscrowed r.profitFactor).1

/-- Observable query (spec §6): the profit share of the current escrow. -/
def getCurrentProfitsAmount (r : Raffle) : Nat :=
  (computeSplit r.totalEscrowed r.profitFactor).2

/-- Observable query (spec §4.1, §6, and the `ticketAddress` accessor the
tests call): owner lookup by ticket number.  Total: unsold tickets map to
the default identity 0, as a Solidity mapping would. -/
def ticketAddress (r : Raffle) (t : Nat) : Nat := r.ticketOwner t

/-- Modelled from the spec (§4.4): `openRound(price, min, max)` — owner-only,
legal only from `Closed` (else `RoundAlreadyOpen`), `InvalidTicketRange` if
`min > max`; on success resets ledger and escrow and sets state `Open`. -/
def openRound (sys : System) (caller price tmin tmax : Nat) : Except RaffleError System :=
  let r := sys.raffle
  if caller ≠ r.owner then .error .Unauthorized
  else if r.state ≠ .Closed then .error .RoundAlreadyOpen
  else if tmax < tmin then .error .InvalidTicketRange
  else .ok { sys with raffle := { r with
    state := .Open, ticketPrice := price,
    ticketMinNumber := tmin, ticketMaxNumber := tmax,
    soldTicketNumbers := [], ticketOwner := fun _ => 0, totalEscrowed := 0,
    prizeAmount := 0, profitAmount := 0,
    pendingRequestId := none, obtainedRandomNumber := none,
    winnerTicketNumber := 0, winnerIdentity := 0,
    prizeRedeemed := false, profitRedeemed := false,
    refundable := fun _ => 0 } }

/-- Modelled from the spec (§4.1, §4.4): `buyTicket` — legal only in `Open`
(else `RaffleNotOpen`), `InvalidTicketNumber` outside `[min, max]`,
`TicketAlreadySold` if the number is already in `soldTicketNumbers`;
otherwise pulls `ticketPrice` through the token (propagating its failure)
and atomically records the sale: the number is appended to the sold
sequence, the buyer recorded, and the price credited to escrow. -/
def buyTicket (sys : System) (number buyer : Nat) : Except RaffleError System :=
  let r := sys.raffle
  if r.state ≠ .Open then .error .RaffleNotOpen
  else if number < r.ticketMinNumber ∨ r.ticketMaxNumber < number then
    .error .InvalidTicketNumber
  else if number ∈ r.soldTicketNumbers then .error .TicketAlreadySold
  else
    match sys.token.transferFrom buyer r.ticketPrice with
    | .error e => .error e
    | .ok t =>
      .ok { raffle := { r with
              soldTicketNumbers := r.soldTicketNumbers ++ [number],
              ticketOwner := updateFn r.ticketOwner number buyer,
              totalEscrowed := r.totalEscrowed + r.ticketPrice },
            token := t }

/-- Modelled from the spec (§4.3, §4.4): `closeSalesAndPickWinner` —
owner-only, legal only in `Open`; fixes the prize/profit split, issues the
single outstanding randomness request and moves to `SalesFinished`. -/
def closeTicketsSaleAndPickWinner (sys : System) (caller : Nat) : Except RaffleError System :=
  let r := sys.raffle
  if caller ≠ r.owner then .error .Unauthorized
  else if r.state ≠ .Open then .error .RaffleNotOpen
  else
    let split := computeSplit r.totalEscrowed r.profitFactor
    .ok { sys with raffle := { r with
      state := .SalesFinished,
      prizeAmount := split.1, profitAmount := split.2,
      pendingRequestId := some r.nextRequestId,
      nextRequestId := r.nextRequestId + 1 } }

/-- Modelled from the spec (§4.3, §4.4): the randomness callback — legal only
in `SalesFinished`, `UnknownRequest` unless the request id matches the
outstanding request; maps the raw value to a winner by
`index = rawValue mod soldTicketNumbers.length`, records the winner and
settles; if no tickets were sold it instead moves directly to the
refundable terminal state `Cancelled` (explicitly, avoiding the modulo). -/
def onRandomnessFulfilled (sys : System) (requestId rawValue : Nat) : Except RaffleError System :=
  let r := sys.raffle
  if r.state ≠ .SalesFinished then .error .InvalidState
  else if r.pendingRequestId ≠ some requestId then .error .UnknownRequest
  else if r.soldTicketNumbers = [] then
    .ok { sys with raffle := { r with
      state := .Cancelled, pendingRequestId := none,
      obtainedRandomNumber := some rawValue,
      refundable := fun b => r.ticketPrice * ownedCount r b } }
  else
    let winner := r.soldTicketNumbers.getD (rawValue % r.soldTicketNumbers.length) 0
    .ok { sys with raffle := { r with
      state := .Settled, pendingRequestId := none,
      obtainedRandomNumber := some rawValue,
      winnerTicketNumber := winner,
      winnerIdentity := r.ticketOwner winner } }

/-- Modelled from the spec (§4.4): `redeemPrize(caller)` — legal only in
`Settled`, `Unauthorized` unless the caller is the winner, `AlreadyRedeemed`
if the prize was already redeemed; otherwise pushes `prizeAmount` to the
caller and marks the prize redeemed. -/
def redeemPrize (sys : System) (caller : Nat) : Except RaffleError System :=
  let r := sys.raffle
  if r.state ≠ .Settled then .error .InvalidState
  else if caller ≠ r.winnerIdentity then .error .Unauthorized
  else if r.prizeRedeemed then .error .AlreadyRedeemed
  else .ok { raffle := { r with prizeRedeemed := true },
             token := sys.token.transfer caller r.prizeAmount }

/-- Modelled from the spec (§4.4): `claimProfits(caller)` — legal only in
`Settled`, `Unauthorized` unless the caller is the beneficiary,
`AlreadyRedeemed` if the profits were already claimed; otherwise pushes
`profitAmount` to the caller and marks the profits redeemed. -/
def claimProfits (sys : System) (caller : Nat) : Except RaffleError System :=
  let r := sys.raffle
  if r.state ≠ .Settled then .error .InvalidState
  else if caller ≠ r.beneficiaryAddress then .error .Unauthorized
  else if r.profitRedeemed then .error .AlreadyRedeemed
  else .ok { raffle := { r with profitRedeemed := true },
             token := sys.token.transfer caller r.profitAmount }

/-- Modelled from the spec (§4.4): `cancelRound()` — owner-only, legal only
in `Open` or `SalesFinished`; converts every sold ticket's paid price into
a per-buyer refundable balance and moves to `Cancelled`. -/
def cancelRaffle (sys : System) (caller : Nat) : Except RaffleError System :=
  let r := sys.raffle
  if caller ≠ r.owner then .error .Unauthorized
  else if r.state = .Open ∨ r.state = .SalesFinished then
    .ok { sys with raffle := { r with
      state := .Cancelled,
      refundable := fun b => r.ticketPrice * ownedCount r b } }
  else .error .InvalidState

/-- Modelled from the spec (§4.4): `claimRefund(caller)` — legal only in
`Cancelled`, `NothingToRefund` if the caller's refundable balance is zero;
otherwise pays the balance out and zeroes it. -/
def claimRefunds (sys : System) (caller : Nat) : Except RaffleError System :=
  let r := sys.raffle
  if r.state ≠ .Cancelled then .error .InvalidState
  else if r.refundable caller = 0 then .error .NothingToRefund
  else .ok { raffle := { r with refundable := updateFn r.refundable caller 0 },
             token := sys.token.transfer caller (r.refundable caller) }

/-- The state an operation leaves behind: the new state on success, the
original state on failure (a rejected operation has no partial effect). -/
def applyOr (sys : System) (res : Except RaffleError System) : System :=
  match res with
  | .ok s => s
  | .error _ => sys

/-- One purchase attempt in a sequence: `(number, buyer)`; a failed call
leaves the system unchanged. -/
def buyStep (sys : System) (p : Nat × Nat) : System :=
  applyOr sys (buyTicket sys p.1 p.2)

/-- A sequence of purchase attempts, applied in order. -/
def runPurchases (sys : System) (reqs : List (Nat × Nat)) : System :=
  reqs.foldl buyStep sys

/-- The §3 round invariants over the ticket ledger and escrow: the sold
sequence has no duplicates, every sold ticket is in range, escrow equals
ticket count times price, and unsold numbers map to the default identity. -/
structure RoundInv (r : Raffle) : Prop where
  nodup : r.soldTicketNumbers.Nodup
  inRange : ∀ t ∈ r.soldTicketNumbers, r.ticketMinNumber ≤ t ∧ t ≤ r.ticketMaxNumber
  escrow : r.totalEscrowed = r.soldTicketNumbers.length * r.ticketPrice
  ownerUnsold : ∀ t, t ∉ r.soldTicketNumbers → r.ticketOwner t = 0

/-- Every sold ticket is owned by a non-default identity (buyers are real
senders, never the null address). -/
def SoldOwnersNonzero (r : Raffle) : Prop :=
  ∀ t ∈ r.soldTicketNumbers, r.ticketOwner t ≠ 0

/-- Conservation of buyer funds: relative to the baseline balances `init`,
each identity's token balance is down by exactly the price of the tickets
it currently owns in the round. -/
def BalInv (init : Nat → Nat) (sys : System) : Prop :=
  ∀ b, sys.token.balanceOf b + sys.raffle.ticketPrice * ownedCount sys.raffle b = init b

/-- The token configuration of the test scenario: players 1, 2, 3 hold 100
units each; players 1 and 2 approved 5, player 3 approved 10; identity 5 is
an approved-but-unfunded account. -/
def demoToken : Token :=
  { balanceOf := fun b => if b = 1 ∨ b = 2 ∨ b = 3 then 100 else 0,
    allowance := fun b =>
      if b = 1 ∨ b = 2 then 5 else if b = 3 then 10 else if b = 5 then 5 else 0 }

/-- The freshly deployed raffle of the test scenario: price 5, ticket range
`[1, 200]`, profit factor 20, owner 100, beneficiary 9, state `Closed`. -/
def initRaffle : Raffle :=
  { owner := 100, beneficiaryAddress := 9, profitFactor := 20,
    state := .Closed, ticketPrice := 5,
    ticketMinNumber := 1, ticketMaxNumber := 200,
    soldTicketNumbers := [], ticketOwner := fun _ => 0, totalEscrowed := 0,
    prizeAmount := 0, profitAmount := 0,
    nextRequestId := 0, pendingRequestId := none, obtainedRandomNumber := none,
    winnerTicketNumber := 0, winnerIdentity := 0,
    prizeRedeemed := false, profitRedeemed := false,
    refundable := fun _ => 0 }

/-- The deployed system before any round is opened. -/
def initSystem : System := ⟨initRaffle, demoToken⟩

/-- The system right after the owner opened the sale. -/
def openSys : System := ⟨{ initRaffle with state := .Open }, demoToken⟩

/-- Ticket ownership after the test scenario's four purchases
(7 → player 1, 51 → player 2, 88 and 42 → player 3). -/
def demoOwners : Nat → Nat :=
  fun t => if t = 7 then 1 else if t = 51 then 2 else if t = 88 ∨ t = 42 then 3 else 0

/-- The system after the four test purchases and the owner's close: awaiting
randomness for request 0, escrow 20 split 16/4. -/
def finishedSys : System :=
  ⟨{ initRaffle with
     state := .SalesFinished,
     soldTicketNumbers := [7, 51, 88, 42], ticketOwner := demoOwners,
     totalEscrowed := 20, prizeAmount := 16, profitAmount := 4,
     pendingRequestId := some 0, nextRequestId := 1 }, demoToken⟩

/-- A round closed with zero tickets sold, awaiting randomness. -/
def emptyFinishedSys : System :=
  ⟨{ initRaffle with
     state := .SalesFinished,
     pendingRequestId := some 0, nextRequestId := 1 }, demoToken⟩

/-- The settled system of the test scenario: raw value 2 picked ticket 88,
so player 3 is the winner. -/
def settledSys : System :=
  ⟨{ initRaffle with
     state := .Settled,
     soldTicketNumbers := [7, 51, 88, 42], ticketOwner := demoOwners,
     totalEscrowed := 20, prizeAmount := 16, profitAmount := 4,
     obtainedRandomNumber := some 2, winnerTicketNumber := 88,
     winnerIdentity := 3, nextRequestId := 1 }, demoToken⟩

/-- The settled system after the winner redeemed the prize. -/
def afterRedeemSys : System := applyOr settledSys (redeemPrize settledSys 3)

/-- The settled system after the beneficiary claimed the profits. -/
def afterClaimSys : System := applyOr settledSys (claimProfits settledSys 9)

/-- The state after a cancellation attempt (unchanged if it failed). -/
def cancelStep (sys : System) (c : Nat) : System := applyOr sys (cancelRaffle sys c)

/-- The state after a refund-claim attempt (unchanged if it failed). -/
def refundStep (sys : System) (c : Nat) : System := applyOr sys (claimRefunds sys c)

/-- The four purchases of the test scenario:
7 → player 1, 51 → player 2, 88 and 42 → player 3. -/
def demoReqs : List (Nat × Nat) := [(7, 1), (51, 2), (88, 3), (42, 3)]

/-- An open round in which ticket 66 has already been sold to player 1. -/
def soldOneSys : System :=
  ⟨{ initRaffle with
     state := .Open, soldTicketNumbers := [66],
     ticketOwner := updateFn (fun _ => 0) 66 1,
     totalEscrowed := 5 }, demoToken⟩

theorem updateFn_same (f : Nat → Nat) (k v : Nat) : updateFn f k v k = v := by
  simp [updateFn]

theorem updateFn_ne (f : Nat → Nat) (k v x : Nat) (h : x ≠ k) :
    updateFn f k v x = f x := by
  simp [updateFn, h]

theorem transferFrom_ok_spec {t : Token} {payer amount : Nat} {t' : Token}
    (h : Token.transferFrom t payer amount = .ok t') :
    amount ≤ t.allowance payer ∧ amount ≤ t.balanceOf payer ∧
    t' = { balanceOf := updateFn t.balanceOf payer (t.balanceOf payer - amount),
           allowance := updateFn t.allowance payer (t.allowance payer - amount) } := by
  unfold Token.transferFrom at h
  split at h
  · exact absurd h (by simp)
  · split at h
    · exact absurd h (by simp)
    · rename_i h1 h2
      simp only [Except.ok.injEq] at h
      exact ⟨by omega, by omega, h.symm⟩

theorem buyTicket_ok_spec {sys : System} {n b : Nat} {sys' : System}
    (h : buyTicket sys n b = .ok sys') :
    sys.raffle.state = .Open ∧
    sys.raffle.ticketMinNumber ≤ n ∧ n ≤ sys.raffle.ticketMaxNumber ∧
    n ∉ sys.raffle.soldTicketNumbers ∧
    sys.raffle.ticketPrice ≤ sys.token.allowance b ∧
    sys.raffle.ticketPrice ≤ sys.token.balanceOf b ∧
    sys' = { raffle := { sys.raffle with
               soldTicketNumbers := sys.raffle.soldTicketNumbers ++ [n],
               ticketOwner := updateFn sys.raffle.ticketOwner n b,
               totalEscrowed := sys.raffle.totalEscrowed + sys.raffle.ticketPrice },
             token := { balanceOf :=
                          updateFn sys.token.balanceOf b
                            (sys.token.balanceOf b - sys.raffle.ticketPrice),
                        allowance :=
                          updateFn sys.token.allowance b
                            (sys.token.allowance b - sys.raffle.ticketPrice) } } := by
  simp only [buyTicket] at h
  split at h
  · exact absurd h (by simp)
  · split at h
    · exact absurd h (by simp)
    · split at h
      · exact absurd h (by simp)
      · rename_i h1 h2 h3
        split at h
        · exact absurd h (by simp)
        · rename_i t ht
          obtain ⟨ha, hb2, ht'⟩ := transferFrom_ok_spec ht
          subst ht'
          simp only [Except.ok.injEq] at h
          refine ⟨by simpa using h1, by omega, by omega, h3, ha, hb2, h.symm⟩

theorem buyStep_cases (sys : System) (p : Nat × Nat) :
    buyStep sys p = sys ∨
      ∃ sys', buyTicket sys p.1 p.2 = .ok sys' ∧ buyStep sys p = sys' := by
  rcases h : buyTicket sys p.1 p.2 with e | s
  · exact Or.inl (by simp [buyStep, applyOr, h])
  · exact Or.inr ⟨s, rfl, by simp [buyStep, applyOr, h]⟩

theorem buyStep_config (sys : System) (p : Nat × Nat) :
    (buyStep sys p).raffle.state = sys.raffle.state ∧
    (buyStep sys p).raffle.owner = sys.raffle.owner ∧
    (buyStep sys p).raffle.beneficiaryAddress = sys.raffle.beneficiaryAddress ∧
    (buyStep sys p).raffle.profitFactor = sys.raffle.profitFactor ∧
    (buyStep sys p).raffle.ticketPrice = sys.raffle.ticketPrice ∧
    (buyStep sys p).raffle.ticketMinNumber = sys.raffle.ticketMinNumber ∧
    (buyStep sys p).raffle.ticketMaxNumber = sys.raffle.ticketMaxNumber := by
  rcases buyStep_cases sys p with h | ⟨sys', hok, h⟩
  · rw [h]; exact ⟨rfl, rfl, rfl, rfl, rfl, rfl, rfl⟩
  · obtain ⟨_, _, _, _, _, _, hshape⟩ := buyTicket_ok_spec hok
    rw [h, hshape]; exact ⟨rfl, rfl, rfl, rfl, rfl, rfl, rfl⟩

theorem runPurchases_config (reqs : List (Nat × Nat)) : ∀ sys : System,
    (runPurchases sys reqs).raffle.state = sys.raffle.state ∧
    (runPurchases sys reqs).raffle.owner = sys.raffle.owner ∧
    (runPurchases sys reqs).raffle.beneficiaryAddress = sys.raffle.beneficiaryAddress ∧
    (runPurchases sys reqs).raffle.profitFactor = sys.raffle.profitFactor ∧
    (runPurchases sys reqs).raffle.ticketPrice = sys.raffle.ticketPrice ∧
    (runPurchases sys reqs).raffle.ticketMinNumber = sys.raffle.ticketMinNumber ∧
    (runPurchases sys reqs).raffle.ticketMaxNumber = sys.raffle.ticketMaxNumber := by
  induction reqs with
  | nil => exact fun sys => ⟨rfl, rfl, rfl, rfl, rfl, rfl, rfl⟩
  | cons p ps ih =>
    intro sys
    have h1 := buyStep_config sys p
    have h2 := ih (buyStep sys p)
    have e : runPurchases sys (p :: ps) = runPurchases (buyStep sys p) ps := rfl
    rw [e]
    exact ⟨h2.1.trans h1.1, h2.2.1.trans h1.2.1, h2.2.2.1.trans h1.2.2.1,
      h2.2.2.2.1.trans h1.2.2.2.1, h2.2.2.2.2.1.trans h1.2.2.2.2.1,
      h2.2.2.2.2.2.1.trans h1.2.2.2.2.2.1, h2.2.2.2.2.2.2.trans h1.2.2.2.2.2.2⟩

theorem roundInv_buyStep {sys : System} (hInv : RoundInv sys.raffle) (p : Nat × Nat) :
    RoundInv (buyStep sys p).raffle := by
  rcases buyStep_cases sys p with h | ⟨sys', hok, h⟩
  · rw [h]; exact hInv
  · obtain ⟨hst, hmin, hmax, hnot, _, _, hshape⟩ := buyTicket_ok_spec hok
    rw [h, hshape]
    refine ⟨?_, ?_, ?_, ?_⟩
    · refine List.Nodup.append hInv.nodup (List.nodup_singleton _) ?_
      intro a ha hb
      simp only [List.mem_singleton] at hb
      subst hb
      exact hnot ha
    · intro t ht
      rcases List.mem_append.mp ht with h1 | h1
      · exact hInv.inRange t h1
      · simp only [List.mem_singleton] at h1
        subst h1
        exact ⟨hmin, hmax⟩
    · show sys.raffle.totalEscrowed + sys.raffle.ticketPrice =
        (sys.raffle.soldTicketNumbers ++ [p.1]).length * sys.raffle.ticketPrice
      simp [List.length_append, Nat.add_mul, hInv.escrow]
    · intro t ht
      have htn : t ≠ p.1 := fun e => ht (List.mem_append.mpr (Or.inr (by simp [e])))
      have hts : t ∉ sys.raffle.soldTicketNumbers :=
        fun hm => ht (List.mem_append.mpr (Or.inl hm))
      show updateFn sys.raffle.ticketOwner p.1 p.2 t = 0
      rw [updateFn_ne _ _ _ _ htn]
      exact hInv.ownerUnsold t hts

theorem soldOwnersNonzero_buyStep {sys : System} (hnz : SoldOwnersNonzero sys.raffle)
    (p : Nat × Nat) (hb : p.2 ≠ 0) : SoldOwnersNonzero (buyStep sys p).raffle := by
  rcases buyStep_cases sys p with h | ⟨sys', hok, h⟩
  · rw [h]; exact hnz
  · obtain ⟨_, _, _, hnot, _, _, hshape⟩ := buyTicket_ok_spec hok
    rw [h, hshape]
    intro t ht
    show updateFn sys.raffle.ticketOwner p.1 p.2 t ≠ 0
    rcases List.mem_append.mp ht with h1 | h1
    · have htn : t ≠ p.1 := fun e => hnot (e ▸ h1)
      rw [updateFn_ne _ _ _ _ htn]
      exact hnz t h1
    · simp only [List.mem_singleton] at h1
      subst h1
      rw [updateFn_same]
      exact hb

theorem roundInv_runPurchases (reqs : List (Nat × Nat)) : ∀ sys : System,
    RoundInv sys.raffle → RoundInv (runPurchases sys reqs).raffle := by
  induction reqs with
  | nil => exact fun _ h => h
  | cons p ps ih => exact fun sys h => ih (buyStep sys p) (roundInv_buyStep h p)

theorem soldOwnersNonzero_runPurchases (reqs : List (Nat × Nat))
    (hb : ∀ p ∈ reqs, p.2 ≠ 0) : ∀ sys : System,
    SoldOwnersNonzero sys.raffle → SoldOwnersNonzero (runPurchases sys reqs).raffle := by
  induction reqs with
  | nil => exact fun _ h => h
  | cons p ps ih =>
    intro sys h
    exact ih (fun q hq => hb q (by simp [hq])) (buyStep sys p)
      (soldOwnersNonzero_buyStep h p (hb p (by simp)))

theorem countP_congr_on {p q : Nat → Bool} :
    ∀ l : List Nat, (∀ a ∈ l, p a = q a) → l.countP p = l.countP q := by
  intro l
  induction l with
  | nil => intro _; rfl
  | cons a t ih =>
    intro h
    rw [List.countP_cons, List.countP_cons, h a (by simp),
      ih (fun b hb => h b (by simp [hb]))]

theorem ownedCount_append_update (r : Raffle) (n b x : Nat)
    (hnot : n ∉ r.soldTicketNumbers) :
    (r.soldTicketNumbers ++ [n]).countP (fun t => updateFn r.ticketOwner n b t == x)
      = ownedCount r x + (if b = x then 1 else 0) := by
  rw [List.countP_append]
  have h1 : r.soldTicketNumbers.countP (fun t => updateFn r.ticketOwner n b t == x)
      = r.soldTicketNumbers.countP (fun t => r.ticketOwner t == x) := by
    apply countP_congr_on
    intro a ha
    have hne : a ≠ n := fun e => hnot (e ▸ ha)
    simp [updateFn_ne _ _ _ _ hne]
  rw [h1]
  unfold ownedCount
  congr 1
  rw [List.countP_cons, List.countP_nil]
  simp [updateFn_same]

theorem balInv_buyStep {init : Nat → Nat} {sys : System} (hbal : BalInv init sys)
    (p : Nat × Nat) : BalInv init (buyStep sys p) := by
  rcases buyStep_cases sys p with h | ⟨sys', hok, h⟩
  · rw [h]; exact hbal
  · obtain ⟨_, _, _, hnot, _, hble, hshape⟩ := buyTicket_ok_spec hok
    rw [h, hshape]
    intro x
    have hb0 := hbal x
    show updateFn sys.token.balanceOf p.2
        (sys.token.balanceOf p.2 - sys.raffle.ticketPrice) x
      + sys.raffle.ticketPrice *
        (sys.raffle.soldTicketNumbers ++ [p.1]).countP
          (fun t => updateFn sys.raffle.ticketOwner p.1 p.2 t == x) = init x
    rw [ownedCount_append_update sys.raffle p.1 p.2 x hnot]
    by_cases hx : p.2 = x
    · subst hx
      rw [updateFn_same, if_pos rfl, Nat.mul_add, Nat.mul_one]
      omega
    · rw [updateFn_ne _ _ _ _ (fun e => hx e.symm), if_neg hx, Nat.add_zero]
      exact hb0

theorem balInv_runPurchases {init : Nat → Nat} (reqs : List (Nat × Nat)) :
    ∀ sys : System, BalInv init sys → BalInv init (runPurchases sys reqs) := by
  induction reqs with
  | nil => exact fun _ h => h
  | cons p ps ih => exact fun sys h => ih (buyStep sys p) (balInv_buyStep h p)

theorem computeSplit_sum_eq (t pf : Nat) (h : pf ≤ 100) :
    (computeSplit t pf).1 + (computeSplit t pf).2 = t := by
  unfold computeSplit
  dsimp only
  have h1 : t * pf / 100 ≤ t := by
    have h2 : t * pf ≤ t * 100 := Nat.mul_le_mul_left t h
    have h3 : t * pf / 100 ≤ t * 100 / 100 := Nat.div_le_div_right h2
    omega
  omega

theorem redeemPrize_ok_spec {sys : System} {c : Nat} {sys' : System}
    (h : redeemPrize sys c = .ok sys') :
    sys.raffle.state = .Settled ∧ c = sys.raffle.winnerIdentity ∧
    sys.raffle.prizeRedeemed = false ∧
    sys' = ⟨{ sys.raffle with prizeRedeemed := true },
            sys.token.transfer c sys.raffle.prizeAmount⟩ := by
  simp only [redeemPrize] at h
  split at h
  · exact absurd h (by simp)
  · split at h
    · exact absurd h (by simp)
    · split at h
      · exact absurd h (by simp)
      · rename_i h1 h2 h3
        simp only [Except.ok.injEq] at h
        exact ⟨by simpa using h1, by simpa using h2, by simpa using h3, h.symm⟩

theorem claimProfits_ok_spec {sys : System} {c : Nat} {sys' : System}
    (h : claimProfits sys c = .ok sys') :
    sys.raffle.state = .Settled ∧ c = sys.raffle.beneficiaryAddress ∧
    sys.raffle.profitRedeemed = false ∧
    sys' = ⟨{ sys.raffle with profitRedeemed := true },
            sys.token.transfer c sys.raffle.profitAmount⟩ := by
  simp only [claimProfits] at h
  split at h
  · exact absurd h (by simp)
  · split at h
    · exact absurd h (by simp)
    · split at h
      · exact absurd h (by simp)
      · rename_i h1 h2 h3
        simp only [Except.ok.injEq] at h
        exact ⟨by simpa using h1, by simpa using h2, by simpa using h3, h.symm⟩

theorem claimRefunds_ok_spec {sys : System} {c : Nat} {sys' : System}
    (h : claimRefunds sys c = .ok sys') :
    sys.raffle.state = .Cancelled ∧ sys.raffle.refundable c ≠ 0 ∧
    sys' = ⟨{ sys.raffle with refundable := updateFn sys.raffle.refundable c 0 },
            sys.token.transfer c (sys.raffle.refundable c)⟩ := by
  simp only [claimRefunds] at h
  split at h
  · exact absurd h (by simp)
  · split at h
    · exact absurd h (by simp)
    · rename_i h1 h2
      simp only [Except.ok.injEq] at h
      exact ⟨by simpa using h1, h2, h.symm⟩

theorem cancelRaffle_ok_spec {sys : System} {c : Nat} {sys' : System}
    (h : cancelRaffle sys c = .ok sys') :
    c = sys.raffle.owner ∧
    (sys.raffle.state = .Open ∨ sys.raffle.state = .SalesFinished) ∧
    sys' = ⟨{ sys.raffle with
              state := .Cancelled,
              refundable := fun b => sys.raffle.ticketPrice * ownedCount sys.raffle b },
            sys.token⟩ := by
  simp only [cancelRaffle] at h
  split at h
  · exact absurd h (by simp)
  · split at h
    · rename_i h1 h2
      simp only [Except.ok.injEq] at h
      exact ⟨by simpa using h1, h2, h.symm⟩
    · exact absurd h (by simp)

theorem cancelRaffle_eq_ok {sys : System} {c : Nat} (hc : c = sys.raffle.owner)
    (hs : sys.raffle.state = .Open ∨ sys.raffle.state = .SalesFinished) :
    cancelRaffle sys c = .ok ⟨{ sys.raffle with
      state := .Cancelled,
      refundable := fun b => sys.raffle.ticketPrice * ownedCount sys.raffle b },
      sys.token⟩ := by
  simp only [cancelRaffle]
  rw [if_neg (by simp [hc]), if_pos hs]

theorem roundInv_openSys : RoundInv openSys.raffle :=
  ⟨by decide, by decide, rfl, fun _ _ => rfl⟩

theorem roundInv_soldOneSys : RoundInv soldOneSys.raffle := by
  refine ⟨by decide, by decide, rfl, ?_⟩
  intro t ht
  have hne : t ≠ 66 := by
    intro e
    apply ht
    rw [e]
    decide
  show updateFn (fun _ => 0) 66 1 t = 0
  rw [updateFn_ne _ _ _ _ hne]

/-- C1: for every non-negative `totalEscrowed` and every `profitFactor` in
`[0, 100]`, `computeSplit` returns `profit = floor(totalEscrowed *
profitFactor / 100)` and `prize = totalEscrowed - profit`, so `prize +
profit = totalEscrowed` exactly, the rounding remainder going to the prize
side. -/
theorem computeSplit_exact (total pf : Nat) (hpf : pf ≤ 100) :
    (computeSplit total pf).2 = total * pf / 100 ∧
    (computeSplit total pf).1 = total - total * pf / 100 ∧
    (computeSplit total pf).1 + (computeSplit total pf).2 = total :=
  ⟨rfl, rfl, computeSplit_sum_eq total pf hpf⟩

theorem computeSplit_exact_witness :
    (computeSplit 20 20).2 = 20 * 20 / 100 ∧
    (computeSplit 20 20).1 = 20 - 20 * 20 / 100 ∧
    (computeSplit 20 20).1 + (computeSplit 20 20).2 = 20 :=
  computeSplit_exact 20 20 (by decide)

/-- C2: for every raw random value delivered while the round is in
`SalesFinished` with a matching request and a non-empty sold list, the
callback succeeds, sets `winnerTicketNumber` to
`soldTicketNumbers[rawValue mod length]`, sets the winner identity to that
ticket's owner, and moves the round to `Settled`. -/
theorem fulfillRandomness_picks_winner (sys : System) (reqId rawValue : Nat)
    (hstate : sys.raffle.state = .SalesFinished)
    (hreq : sys.raffle.pendingRequestId = some reqId)
    (hne : sys.raffle.soldTicketNumbers ≠ []) :
    onRandomnessFulfilled sys reqId rawValue
        = .ok (applyOr sys (onRandomnessFulfilled sys reqId rawValue)) ∧
    (applyOr sys (onRandomnessFulfilled sys reqId rawValue)).raffle.winnerTicketNumber
        = sys.raffle.soldTicketNumbers.getD
            (rawValue % sys.raffle.soldTicketNumbers.length) 0 ∧
    (applyOr sys (onRandomnessFulfilled sys reqId rawValue)).raffle.winnerIdentity
        = sys.raffle.ticketOwner
            ((applyOr sys (onRandomnessFulfilled sys reqId rawValue)).raffle.winnerTicketNumber) ∧
    (applyOr sys (onRandomnessFulfilled sys reqId rawValue)).raffle.state = .Settled := by
  have hok : onRandomnessFulfilled sys reqId rawValue = .ok ⟨{ sys.raffle with
      state := .Settled, pendingRequestId := none,
      obtainedRandomNumber := some rawValue,
      winnerTicketNumber := sys.raffle.soldTicketNumbers.getD
        (rawValue % sys.raffle.soldTicketNumbers.length) 0,
      winnerIdentity := sys.raffle.ticketOwner
        (sys.raffle.soldTicketNumbers.getD
          (rawValue % sys.raffle.soldTicketNumbers.length) 0) }, sys.token⟩ := by
    simp only [onRandomnessFulfilled]
    rw [if_neg (by simp [hstate]), if_neg (by simp [hreq]), if_neg hne]
  rw [hok]
  exact ⟨rfl, rfl, rfl, rfl⟩

theorem fulfillRandomness_picks_winner_witness :
    onRandomnessFulfilled finishedSys 0 2
        = .ok (applyOr finishedSys (onRandomnessFulfilled finishedSys 0 2)) ∧
    (applyOr finishedSys (onRandomnessFulfilled finishedSys 0 2)).raffle.winnerTicketNumber = 88 ∧
    (applyOr finishedSys (onRandomnessFulfilled finishedSys 0 2)).raffle.winnerIdentity = 3 ∧
    (applyOr finishedSys (onRandomnessFulfilled finishedSys 0 2)).raffle.state = .Settled := by
  have h := fulfillRandomness_picks_winner finishedSys 0 2 rfl rfl (by decide)
  refine ⟨h.1, ?_, ?_, h.2.2.2⟩
  · rw [h.2.1]
    decide
  · rw [h.2.2.1, h.2.1]
    decide

/-- C8: if the sold list is empty when the randomness fulfillment arrives in
`SalesFinished`, the round transitions directly to the refundable terminal
state `Cancelled` instead of computing a winner; the operation succeeds, so
no division fault occurs (the modulo winner mapping is never evaluated). -/
theorem fulfillRandomness_empty_refundable (sys : System) (reqId rawValue : Nat)
    (hstate : sys.raffle.state = .SalesFinished)
    (hreq : sys.raffle.pendingRequestId = some reqId)
    (hempty : sys.raffle.soldTicketNumbers = []) :
    onRandomnessFulfilled sys reqId rawValue
        = .ok (applyOr sys (onRandomnessFulfilled sys reqId rawValue)) ∧
    (applyOr sys (onRandomnessFulfilled sys reqId rawValue)).raffle.state = .Cancelled := by
  have hok : onRandomnessFulfilled sys reqId rawValue = .ok ⟨{ sys.raffle with
      state := .Cancelled, pendingRequestId := none,
      obtainedRandomNumber := some rawValue,
      refundable := fun b => sys.raffle.ticketPrice * ownedCount sys.raffle b },
      sys.token⟩ := by
    simp only [onRandomnessFulfilled]
    rw [if_neg (by simp [hstate]), if_neg (by simp [hreq]), if_pos hempty]
  rw [hok]
  exact ⟨rfl, rfl⟩

theorem fulfillRandomness_empty_refundable_witness :
    onRandomnessFulfilled emptyFinishedSys 0 5
        = .ok (applyOr emptyFinishedSys (onRandomnessFulfilled emptyFinishedSys 0 5)) ∧
    (applyOr emptyFinishedSys (onRandomnessFulfilled emptyFinishedSys 0 5)).raffle.state
        = .Cancelled :=
  fulfillRandomness_empty_refundable emptyFinishedSys 0 5 rfl rfl rfl

/-- C9: `openRound` is legal only from `Closed` and on success sets state
`Open` with a reset ledger and escrow; a second `openRound` call without an
intervening close or cancel fails with `RoundAlreadyOpen` and leaves the
round unchanged. -/
theorem openRound_once (sys : System) (c price tmin tmax : Nat)
    (hc : c = sys.raffle.owner) (hs : sys.raffle.state = .Closed)
    (hr : tmin ≤ tmax) :
    openRound sys c price tmin tmax
        = .ok (applyOr sys (openRound sys c price tmin tmax)) ∧
    (applyOr sys (openRound sys c price tmin tmax)).raffle.state = .Open ∧
    (applyOr sys (openRound sys c price tmin tmax)).raffle.soldTicketNumbers = [] ∧
    (applyOr sys (openRound sys c price tmin tmax)).raffle.totalEscrowed = 0 ∧
    (∀ p2 a2 b2 : Nat,
      openRound (applyOr sys (openRound sys c price tmin tmax)) c p2 a2 b2
          = .error .RoundAlreadyOpen) ∧
    (∀ p2 a2 b2 : Nat,
      applyOr (applyOr sys (openRound sys c price tmin tmax))
          (openRound (applyOr sys (openRound sys c price tmin tmax)) c p2 a2 b2)
        = applyOr sys (openRound sys c price tmin tmax)) := by
  have hok : openRound sys c price tmin tmax = .ok ⟨{ sys.raffle with
      state := .Open, ticketPrice := price,
      ticketMinNumber := tmin, ticketMaxNumber := tmax,
      soldTicketNumbers := [], ticketOwner := fun _ => 0, totalEscrowed := 0,
      prizeAmount := 0, profitAmount := 0,
      pendingRequestId := none, obtainedRandomNumber := none,
      winnerTicketNumber := 0, winnerIdentity := 0,
      prizeRedeemed := false, profitRedeemed := false,
      refundable := fun _ => 0 }, sys.token⟩ := by
    simp only [openRound]
    rw [if_neg (by simp [hc]), if_neg (by simp [hs]), if_neg (by omega)]
  rw [hok]
  have herr : ∀ p2 a2 b2 : Nat,
      openRound (applyOr sys (.ok ⟨{ sys.raffle with
        state := .Open, ticketPrice := price,
        ticketMinNumber := tmin, ticketMaxNumber := tmax,
        soldTicketNumbers := [], ticketOwner := fun _ => 0, totalEscrowed := 0,
        prizeAmount := 0, profitAmount := 0,
        pendingRequestId := none, obtainedRandomNumber := none,
        winnerTicketNumber := 0, winnerIdentity := 0,
        prizeRedeemed := false, profitRedeemed := false,
        refundable := fun _ => 0 }, sys.token⟩)) c p2 a2 b2
        = .error .RoundAlreadyOpen := by
    intro p2 a2 b2
    simp only [openRound, applyOr]
    rw [if_neg (by simp [hc]), if_pos (by simp)]
  refine ⟨rfl, rfl, rfl, rfl, herr, ?_⟩
  intro p2 a2 b2
  rw [herr p2 a2 b2]
  rfl

theorem openRound_once_witness :
    openRound initSystem 100 5 1 200
        = .ok (applyOr initSystem (openRound initSystem 100 5 1 200)) ∧
    (applyOr initSystem (openRound initSystem 100 5 1 200)).raffle.state = .Open ∧
    openRound (applyOr initSystem (openRound initSystem 100 5 1 200)) 100 6 2 300
        = .error .RoundAlreadyOpen := by
  have h := openRound_once initSystem 100 5 1 200 rfl rfl (by decide)
  exact ⟨h.1, h.2.1, h.2.2.2.2.1 6 2 300⟩

/-- C3: across any sequence of `buyTicket` calls in a round no ticket number
appears twice in `soldTicketNumbers`; buying a number already present fails
with `TicketAlreadySold`, and a successful sale appends the number to the
sold sequence (purchase order). -/
theorem soldTickets_no_duplicates (sys : System) (reqs : List (Nat × Nat)) (n b : Nat)
    (hInv : RoundInv sys.raffle) :
    (runPurchases sys reqs).raffle.soldTicketNumbers.Nodup ∧
    (sys.raffle.state = .Open → n ∈ sys.raffle.soldTicketNumbers →
      buyTicket sys n b = .error .TicketAlreadySold) ∧
    (∀ sys', buyTicket sys n b = .ok sys' →
      sys'.raffle.soldTicketNumbers = sys.raffle.soldTicketNumbers ++ [n]) := by
  refine ⟨(roundInv_runPurchases reqs sys hInv).nodup, ?_, ?_⟩
  · intro hst hmem
    have hrange := hInv.inRange n hmem
    simp only [buyTicket]
    rw [if_neg (by simp [hst]), if_neg (by omega), if_pos hmem]
  · intro sys' hok
    obtain ⟨_, _, _, _, _, _, hshape⟩ := buyTicket_ok_spec hok
    rw [hshape]

theorem soldTickets_no_duplicates_witness :
    (runPurchases soldOneSys [(7, 1), (66, 2)]).raffle.soldTicketNumbers.Nodup ∧
    buyTicket soldOneSys 66 2 = .error .TicketAlreadySold := by
  have h := soldTickets_no_duplicates soldOneSys [(7, 1), (66, 2)] 66 2 roundInv_soldOneSys
  exact ⟨h.1, h.2.1 rfl (by decide)⟩

/-- C4: after any sequence of `buyTicket` calls, `totalEscrowed` equals the
number of sold tickets times `ticketPrice`, and the observable prize and
profit amounts sum exactly to `totalEscrowed`. -/
theorem escrow_and_split_invariant (sys : System) (reqs : List (Nat × Nat))
    (hInv : RoundInv sys.raffle) (hpf : sys.raffle.profitFactor ≤ 100) :
    getTotalAccumulatedAmount (runPurchases sys reqs).raffle
        = (runPurchases sys reqs).raffle.soldTicketNumbers.length
            * (runPurchases sys reqs).raffle.ticketPrice ∧
    getCurrentPrizeAmount (runPurchases sys reqs).raffle
        + getCurrentProfitsAmount (runPurchases sys reqs).raffle
        = getTotalAccumulatedAmount (runPurchases sys reqs).raffle := by
  have hInv' := roundInv_runPurchases reqs sys hInv
  have hcfg := runPurchases_config reqs sys
  constructor
  · simp only [getTotalAccumulatedAmount]
    exact hInv'.escrow
  · have hpf' : (runPurchases sys reqs).raffle.profitFactor ≤ 100 := by
      rw [hcfg.2.2.2.1]
      exact hpf
    simp only [getCurrentPrizeAmount, getCurrentProfitsAmount, getTotalAccumulatedAmount]
    exact computeSplit_sum_eq _ _ hpf'

theorem escrow_and_split_invariant_witness :
    getTotalAccumulatedAmount (runPurchases openSys [(7, 1), (51, 2)]).raffle
        = (runPurchases openSys [(7, 1), (51, 2)]).raffle.soldTicketNumbers.length
            * (runPurchases openSys [(7, 1), (51, 2)]).raffle.ticketPrice ∧
    getCurrentPrizeAmount (runPurchases openSys [(7, 1), (51, 2)]).raffle
        + getCurrentProfitsAmount (runPurchases openSys [(7, 1), (51, 2)]).raffle
        = getTotalAccumulatedAmount (runPurchases openSys [(7, 1), (51, 2)]).raffle :=
  escrow_and_split_invariant openSys [(7, 1), (51, 2)] roundInv_openSys (by decide)

/-- C7: when the funds transfer for `buyTicket` cannot be completed, the call
fails with `InsufficientAllowance` or `InsufficientBalance` and has no
partial effect: the system is left exactly as it was, and the §3 round
invariants still hold after the rejected call. -/
theorem buyTicket_atomic_failure (sys : System) (n b : Nat)
    (hstate : sys.raffle.state = .Open)
    (hmin : sys.raffle.ticketMinNumber ≤ n) (hmax : n ≤ sys.raffle.ticketMaxNumber)
    (hnew : n ∉ sys.raffle.soldTicketNumbers)
    (hInv : RoundInv sys.raffle) :
    (sys.token.allowance b < sys.raffle.ticketPrice →
      buyTicket sys n b = .error .InsufficientAllowance ∧ buyStep sys (n, b) = sys) ∧
    (sys.raffle.ticketPrice ≤ sys.token.allowance b →
      sys.token.balanceOf b < sys.raffle.ticketPrice →
      buyTicket sys n b = .error .InsufficientBalance ∧ buyStep sys (n, b) = sys) ∧
    RoundInv (buyStep sys (n, b)).raffle := by
  refine ⟨?_, ?_, roundInv_buyStep hInv (n, b)⟩
  · intro ha
    have herr : buyTicket sys n b = .error .InsufficientAllowance := by
      simp only [buyTicket]
      rw [if_neg (by simp [hstate]), if_neg (by omega), if_neg hnew]
      have htf : sys.token.transferFrom b sys.raffle.ticketPrice
          = .error .InsufficientAllowance := by
        unfold Token.transferFrom
        rw [if_pos ha]
      rw [htf]
    exact ⟨herr, by simp [buyStep, applyOr, herr]⟩
  · intro ha hb2
    have herr : buyTicket sys n b = .error .InsufficientBalance := by
      simp only [buyTicket]
      rw [if_neg (by simp [hstate]), if_neg (by omega), if_neg hnew]
      have htf : sys.token.transferFrom b sys.raffle.ticketPrice
          = .error .InsufficientBalance := by
        unfold Token.transferFrom
        rw [if_neg (by omega), if_pos hb2]
      rw [htf]
    exact ⟨herr, by simp [buyStep, applyOr, herr]⟩

theorem buyTicket_atomic_failure_witness :
    buyTicket openSys 7 4 = .error .InsufficientAllowance ∧
    buyStep openSys (7, 4) = openSys ∧
    buyTicket openSys 7 5 = .error .InsufficientBalance ∧
    buyStep openSys (7, 5) = openSys := by
  have h4 := buyTicket_atomic_failure openSys 7 4 rfl (by decide) (by decide)
    (by decide) roundInv_openSys
  have h5 := buyTicket_atomic_failure openSys 7 5 rfl (by decide) (by decide)
    (by decide) roundInv_openSys
  exact ⟨(h4.1 (by decide)).1, (h4.1 (by decide)).2,
    (h5.2.1 (by decide) (by decide)).1, (h5.2.1 (by decide) (by decide)).2⟩

/-- C5: `redeemPrize` is legal only in `Settled`, fails `Unauthorized` for
every caller other than the winner, succeeds at most once, and after a
success the winner's retry fails `AlreadyRedeemed` (non-winners still fail
`Unauthorized`); symmetrically for `claimProfits` and the beneficiary. -/
theorem redeem_and_claim_at_most_once (sys : System) (c : Nat) :
    (sys.raffle.state ≠ .Settled →
      redeemPrize sys c = .error .InvalidState ∧
      claimProfits sys c = .error .InvalidState) ∧
    (sys.raffle.state = .Settled → c ≠ sys.raffle.winnerIdentity →
      redeemPrize sys c = .error .Unauthorized) ∧
    (sys.raffle.state = .Settled → c ≠ sys.raffle.beneficiaryAddress →
      claimProfits sys c = .error .Unauthorized) ∧
    (sys.raffle.state = .Settled → c = sys.raffle.winnerIdentity →
      sys.raffle.prizeRedeemed = true →
      redeemPrize sys c = .error .AlreadyRedeemed) ∧
    (sys.raffle.state = .Settled → c = sys.raffle.beneficiaryAddress →
      sys.raffle.profitRedeemed = true →
      claimProfits sys c = .error .AlreadyRedeemed) ∧
    (∀ sys', redeemPrize sys c = .ok sys' →
      redeemPrize sys' c = .error .AlreadyRedeemed ∧
      ∀ c', c' ≠ sys'.raffle.winnerIdentity →
        redeemPrize sys' c' = .error .Unauthorized) ∧
    (∀ sys', claimProfits sys c = .ok sys' →
      claimProfits sys' c = .error .AlreadyRedeemed ∧
      ∀ c', c' ≠ sys'.raffle.beneficiaryAddress →
        claimProfits sys' c' = .error .Unauthorized) := by
  refine ⟨?_, ?_, ?_, ?_, ?_, ?_, ?_⟩
  · intro h
    constructor
    · simp only [redeemPrize]
      rw [if_pos h]
    · simp only [claimProfits]
      rw [if_pos h]
  · intro h1 h2
    simp only [redeemPrize]
    rw [if_neg (by simp [h1]), if_pos h2]
  · intro h1 h2
    simp only [claimProfits]
    rw [if_neg (by simp [h1]), if_pos h2]
  · intro h1 h2 h3
    simp only [redeemPrize]
    rw [if_neg (by simp [h1]), if_neg (by simp [h2]), if_pos h3]
  · intro h1 h2 h3
    simp only [claimProfits]
    rw [if_neg (by simp [h1]), if_neg (by simp [h2]), if_pos h3]
  · intro sys' hok
    obtain ⟨hst, hcw, hpr, hshape⟩ := redeemPrize_ok_spec hok
    subst hshape
    constructor
    · simp only [redeemPrize]
      rw [if_neg (by simp [hst]), if_neg (by simp [hcw]), if_pos trivial]
    · intro c' hc'
      simp only [redeemPrize]
      rw [if_neg (by simp [hst]), if_pos (by simpa using hc')]
  · intro sys' hok
    obtain ⟨hst, hcb, hpr, hshape⟩ := claimProfits_ok_spec hok
    subst hshape
    constructor
    · simp only [claimProfits]
      rw [if_neg (by simp [hst]), if_neg (by simp [hcb]), if_pos trivial]
    · intro c' hc'
      simp only [claimProfits]
      rw [if_neg (by simp [hst]), if_pos (by simpa using hc')]

theorem redeem_and_claim_at_most_once_witness :
    redeemPrize settledSys 1 = .error .Unauthorized ∧
    redeemPrize settledSys 3 = .ok afterRedeemSys ∧
    redeemPrize afterRedeemSys 3 = .error .AlreadyRedeemed ∧
    redeemPrize afterRedeemSys 1 = .error .Unauthorized ∧
    claimProfits settledSys 1 = .error .Unauthorized ∧
    claimProfits settledSys 9 = .ok afterClaimSys ∧
    claimProfits afterClaimSys 9 = .error .AlreadyRedeemed := by
  have h1 := redeem_and_claim_at_most_once settledSys 1
  have h3 := redeem_and_claim_at_most_once settledSys 3
  have h9 := redeem_and_claim_at_most_once settledSys 9
  have hok3 : redeemPrize settledSys 3 = .ok afterRedeemSys := rfl
  have hok9 : claimProfits settledSys 9 = .ok afterClaimSys := rfl
  exact ⟨h1.2.1 rfl (by decide), hok3,
    (h3.2.2.2.2.2.1 afterRedeemSys hok3).1,
    (h3.2.2.2.2.2.1 afterRedeemSys hok3).2 1 (by decide),
    h1.2.2.1 rfl (by decide), hok9,
    (h9.2.2.2.2.2.2 afterClaimSys hok9).1⟩

/-- C10: owner lookup for an unsold ticket number is total and returns the
default identity 0 — distinct from every recorded buyer — in every state
reachable by purchases from a well-formed round with non-null buyers. -/
theorem ticketAddress_unsold_default (sys : System) (reqs : List (Nat × Nat)) (t : Nat)
    (hInv : RoundInv sys.raffle) (hnz : SoldOwnersNonzero sys.raffle)
    (hb : ∀ p ∈ reqs, p.2 ≠ 0)
    (ht : t ∉ (runPurchases sys reqs).raffle.soldTicketNumbers) :
    ticketAddress (runPurchases sys reqs).raffle t = 0 ∧
    ∀ s ∈ (runPurchases sys reqs).raffle.soldTicketNumbers,
      ticketAddress (runPurchases sys reqs).raffle s
        ≠ ticketAddress (runPurchases sys reqs).raffle t := by
  have hInv' := roundInv_runPurchases reqs sys hInv
  have hnz' := soldOwnersNonzero_runPurchases reqs hb sys hnz
  have h0 : ticketAddress (runPurchases sys reqs).raffle t = 0 :=
    hInv'.ownerUnsold t ht
  refine ⟨h0, ?_⟩
  intro s hs
  rw [h0]
  exact hnz' s hs

theorem ticketAddress_unsold_default_witness :
    ticketAddress (runPurchases soldOneSys [(7, 1)]).raffle 9 = 0 ∧
    ticketAddress (runPurchases soldOneSys [(7, 1)]).raffle 66
      ≠ ticketAddress (runPurchases soldOneSys [(7, 1)]).raffle 9 := by
  have hnz : SoldOwnersNonzero soldOneSys.raffle := by
    intro s hs
    have hsl : s ∈ [66] := hs
    rw [List.mem_singleton] at hsl
    subst hsl
    decide
  have h := ticketAddress_unsold_default soldOneSys [(7, 1)] 9
    roundInv_soldOneSys hnz (by decide) (by decide)
  exact ⟨h.1, h.2 66 (by decide)⟩

theorem cancelStep_spec {sys : System} {c : Nat}
    (hc : c = sys.raffle.owner)
    (hs : sys.raffle.state = .Open ∨ sys.raffle.state = .SalesFinished) :
    cancelRaffle sys c = .ok (cancelStep sys c) ∧
    (cancelStep sys c).raffle.state = .Cancelled ∧
    ((cancelStep sys c).raffle.refundable
      = fun b => sys.raffle.ticketPrice * ownedCount sys.raffle b) ∧
    (cancelStep sys c).token = sys.token := by
  have hok := cancelRaffle_eq_ok hc hs
  have hcs : cancelStep sys c = ⟨{ sys.raffle with
      state := .Cancelled,
      refundable := fun b => sys.raffle.ticketPrice * ownedCount sys.raffle b },
      sys.token⟩ := by
    simp only [cancelStep]
    rw [hok]
    rfl
  exact ⟨by rw [hcs]; exact hok, by rw [hcs], by rw [hcs], by rw [hcs]⟩

theorem claimRefunds_spec_cancelled {sys : System} {c : Nat}
    (hst : sys.raffle.state = .Cancelled) :
    (sys.raffle.refundable c = 0 →
      claimRefunds sys c = .error .NothingToRefund) ∧
    (sys.raffle.refundable c ≠ 0 →
      claimRefunds sys c = .ok (refundStep sys c) ∧
      (refundStep sys c).token.balanceOf c
          = sys.token.balanceOf c + sys.raffle.refundable c ∧
      (refundStep sys c).raffle.refundable c = 0 ∧
      (refundStep sys c).raffle.state = .Cancelled ∧
      claimRefunds (refundStep sys c) c = .error .NothingToRefund) := by
  constructor
  · intro h0
    simp only [claimRefunds]
    rw [if_neg (by simp [hst]), if_pos h0]
  · intro hne
    have hok : claimRefunds sys c = .ok ⟨{ sys.raffle with
        refundable := updateFn sys.raffle.refundable c 0 },
        sys.token.transfer c (sys.raffle.refundable c)⟩ := by
      simp only [claimRefunds]
      rw [if_neg (by simp [hst]), if_neg hne]
    have hrs : refundStep sys c = ⟨{ sys.raffle with
        refundable := updateFn sys.raffle.refundable c 0 },
        sys.token.transfer c (sys.raffle.refundable c)⟩ := by
      simp only [refundStep]
      rw [hok]
      rfl
    have h2 : (refundStep sys c).raffle.state = .Cancelled := by
      rw [hrs]
      exact hst
    have h3 : (refundStep sys c).raffle.refundable c = 0 := by
      rw [hrs]
      show updateFn sys.raffle.refundable c 0 c = 0
      rw [updateFn_same]
    refine ⟨by rw [hrs]; exact hok, ?_, h3, h2, ?_⟩
    · rw [hrs]
      show updateFn sys.token.balanceOf c
          (sys.token.balanceOf c + sys.raffle.refundable c) c = _
      rw [updateFn_same]
    · simp only [claimRefunds]
      rw [if_neg (by simp [h2]), if_pos h3]

/-- C6: `claimRefund` is legal only in `Cancelled`; after cancelling a round,
a caller with nothing to refund fails with `NothingToRefund`, while a buyer
with a refundable balance succeeds exactly once — the payout restores the
buyer's pre-purchase token balance — and every later call fails with
`NothingToRefund`. -/
theorem claimRefunds_exact_once (sys0 : System) (reqs : List (Nat × Nat)) (caller : Nat)
    (hstate : sys0.raffle.state = .Open)
    (hsold : sys0.raffle.soldTicketNumbers = []) :
    cancelRaffle (runPurchases sys0 reqs) sys0.raffle.owner
        = .ok (cancelStep (runPurchases sys0 reqs) sys0.raffle.owner) ∧
    (cancelStep (runPurchases sys0 reqs) sys0.raffle.owner).raffle.state = .Cancelled ∧
    ((cancelStep (runPurchases sys0 reqs) sys0.raffle.owner).raffle.refundable caller = 0 →
      claimRefunds (cancelStep (runPurchases sys0 reqs) sys0.raffle.owner) caller
          = .error .NothingToRefund) ∧
    ((cancelStep (runPurchases sys0 reqs) sys0.raffle.owner).raffle.refundable caller ≠ 0 →
      claimRefunds (cancelStep (runPurchases sys0 reqs) sys0.raffle.owner) caller
          = .ok (refundStep (cancelStep (runPurchases sys0 reqs) sys0.raffle.owner) caller) ∧
      (refundStep (cancelStep (runPurchases sys0 reqs) sys0.raffle.owner) caller).token.balanceOf caller
          = sys0.token.balanceOf caller ∧
      claimRefunds (refundStep (cancelStep (runPurchases sys0 reqs) sys0.raffle.owner) caller) caller
          = .error .NothingToRefund) ∧
    (∀ s : System, ∀ c : Nat, s.raffle.state ≠ .Cancelled →
      claimRefunds s c = .error .InvalidState) := by
  have hcfg := runPurchases_config reqs sys0
  have hst1 : (runPurchases sys0 reqs).raffle.state = .Open := by
    rw [hcfg.1]
    exact hstate
  obtain ⟨hok, hst2, href2, htok2⟩ :=
    @cancelStep_spec (runPurchases sys0 reqs) sys0.raffle.owner
      hcfg.2.1.symm (Or.inl hst1)
  have hbal0 : BalInv sys0.token.balanceOf sys0 := by
    intro x
    have hc0 : ownedCount sys0.raffle x = 0 := by
      simp [ownedCount, hsold]
    rw [hc0, Nat.mul_zero, Nat.add_zero]
  have hbal1 := balInv_runPurchases reqs sys0 hbal0
  have hcg := @claimRefunds_spec_cancelled
    (cancelStep (runPurchases sys0 reqs) sys0.raffle.owner) caller hst2
  refine ⟨hok, hst2, hcg.1, ?_, ?_⟩
  · intro hne
    obtain ⟨hco, hbal, hzero, hstc, herr⟩ := hcg.2 hne
    refine ⟨hco, ?_, herr⟩
    rw [hbal, htok2]
    have hrefc : (cancelStep (runPurchases sys0 reqs) sys0.raffle.owner).raffle.refundable caller
        = (runPurchases sys0 reqs).raffle.ticketPrice
            * ownedCount (runPurchases sys0 reqs).raffle caller := by
      rw [href2]
    rw [hrefc]
    exact hbal1 caller
  · intro s c hsC
    simp only [claimRefunds]
    rw [if_pos hsC]

theorem claimRefunds_exact_once_witness :
    (cancelStep (runPurchases openSys demoReqs) openSys.raffle.owner).raffle.state
        = .Cancelled ∧
    claimRefunds (cancelStep (runPurchases openSys demoReqs) openSys.raffle.owner) 1
        = .ok (refundStep (cancelStep (runPurchases openSys demoReqs) openSys.raffle.owner) 1) ∧
    (refundStep (cancelStep (runPurchases openSys demoReqs) openSys.raffle.owner) 1).token.balanceOf 1
        = openSys.token.balanceOf 1 ∧
    claimRefunds (refundStep (cancelStep (runPurchases openSys demoReqs) openSys.raffle.owner) 1) 1
        = .error .NothingToRefund ∧
    claimRefunds (cancelStep (runPurchases openSys demoReqs) openSys.raffle.owner) 4
        = .error .NothingToRefund := by
  have h := claimRefunds_exact_once openSys demoReqs 1 rfl rfl
  have h4 := claimRefunds_exact_once openSys demoReqs 4 rfl rfl
  have hne : (cancelStep (runPurchases openSys demoReqs) openSys.raffle.owner).raffle.refundable 1
      ≠ 0 := by decide
  have h40 : (cancelStep (runPurchases openSys demoReqs) openSys.raffle.owner).raffle.refundable 4
      = 0 := by decide
  exact ⟨h.2.1, (h.2.2.2.1 hne).1, (h.2.2.2.1 hne).2.1, (h.2.2.2.1 hne).2.2,
    h4.2.2.1 h40⟩
